import Mathlib

/-!
Shallow embedding of the daily-forecast classification pipeline of
`src/app.py` (Souta0927/weatherforecast), together with theorems checking
the natural-language specification against it.

All real-valued quantities are modelled as rationals; pandas/NumPy
vectorised operations are modelled per row.
-/

namespace WeatherForecast

attribute [local semireducible] Rat.inv Rat.mul Rat.add Rat.sub Rat.ofScientific

/-- The five qualitative weather labels assigned by the classifier
(`晴れ`, `雨注意`, `時々雨`, `晴れ時々曇り`, `曇り` in the source). -/
inductive WeatherLabel where
  | clear
  | rainWarning
  | occasionalRain
  | partlyCloudy
  | cloudy
deriving DecidableEq, Repr

/-- Per-row translation of the classification block of `get_weather_data`
(src/app.py lines 182-210).  The source sets a default label and then
applies four boolean masks in sequence, each mask guarded by the negation
of the earlier masks; a later assignment overwrites the default. -/
def classify (precip ratio : ℚ) : WeatherLabel :=
  let isLowSunshine := decide (ratio < 50)
  let isPartlyCloudyFlag := decide (50 ≤ ratio) && decide (ratio ≤ 90)
  let isNoPrecip := decide (precip = 0)
  let isRainWarning := decide (5 ≤ precip)
  let isLightPrecip := decide (0 < precip) && decide (precip < 5)
  let isOccasionalRain := isLowSunshine && isLightPrecip && !isRainWarning
  let isPartlyCloudyFinal := isNoPrecip && isPartlyCloudyFlag
  let isCloudy := isNoPrecip && isLowSunshine
  let l0 := WeatherLabel.clear
  let l1 := if isRainWarning then WeatherLabel.rainWarning else l0
  let l2 := if isOccasionalRain then WeatherLabel.occasionalRain else l1
  let l3 := if isPartlyCloudyFinal && !isRainWarning && !isOccasionalRain then
      WeatherLabel.partlyCloudy
    else l2
  if isCloudy && !isRainWarning && !isOccasionalRain && !isPartlyCloudyFinal then
    WeatherLabel.cloudy
  else l3

/-- The classifier as the specification words it: a strict first-match
priority chain over (precip_sum_mm, sunshine_ratio_pct). -/
def classifySpec (precip ratio : ℚ) : WeatherLabel :=
  if 5 ≤ precip then WeatherLabel.rainWarning
  else if ratio < 50 ∧ 0 < precip ∧ precip < 5 then WeatherLabel.occasionalRain
  else if precip = 0 ∧ 50 ≤ ratio ∧ ratio ≤ 90 then WeatherLabel.partlyCloudy
  else if precip = 0 ∧ ratio < 50 then WeatherLabel.cloudy
  else WeatherLabel.clear

/-- Per-row translation of the sunshine-ratio computation
(src/app.py lines 173-178): `(sunshine / daylight if daylight > 0 else 0) * 100`. -/
def sunshineRatioPct (daylight sunshine : ℚ) : ℚ :=
  (if 0 < daylight then sunshine / daylight else 0) * 100

/-- NumPy rounding to the nearest integer, ties to even
(the semantics of `ndarray.round(0)`). -/
def roundHalfEven (x : ℚ) : ℤ :=
  let f : ℤ := x.num / (x.den : ℤ)
  let frac : ℚ := x - (f : ℚ)
  if frac < 1 / 2 then f
  else if 1 / 2 < frac then f + 1
  else if f % 2 = 0 then f else f + 1

theorem roundHalfEven_floor (x : ℚ) :
    roundHalfEven x =
      if x - (⌊x⌋ : ℚ) < 1 / 2 then ⌊x⌋
      else if 1 / 2 < x - (⌊x⌋ : ℚ) then ⌊x⌋ + 1
      else if ⌊x⌋ % 2 = 0 then ⌊x⌋ else ⌊x⌋ + 1 := by
  unfold roundHalfEven
  rw [← Rat.floor_def]

/-- The builder's precipitation-probability output
(src/app.py line 150): `round(0).astype(int)`, no clamping. -/
def probabilityOut (x : ℚ) : ℤ :=
  roundHalfEven x

/-! ### Presentation formatter: column projections (src/app.py lines 141-166, 168-224) -/

/-- The columns of `daily_dataframe`, in insertion order
(src/app.py lines 131-151). -/
def dailyDataColumns : List String :=
  ["日付", "最高気温 (°C)", "最低気温 (°C)", "安定した降雨量 (mm)", "にわか雨量 (mm)",
   "昼光時間 (時間)", "日照時間 (時間)", "日の出時刻", "日の入り時刻",
   "降水確率 最大 (%)", "降水合計 (mm)"]

/-- `columns_to_drop_from_daily` (src/app.py lines 158-163). -/
def columnsToDropFromDaily : List String :=
  ["安定した降雨量 (mm)", "にわか雨量 (mm)", "昼光時間 (時間)", "日照時間 (時間)"]

/-- Columns of `daily_display_df` after `drop` (src/app.py line 166);
`DataFrame.drop` keeps the remaining columns in order. -/
def dailyDisplayColumns : List String :=
  dailyDataColumns.filter (fun c => !(columnsToDropFromDaily.contains c))

/-- Columns selected into `custom_df` (src/app.py line 170), then extended by
the `日照率` column (line 173) and the `天気予報` column (line 183). -/
def customWorkingColumns : List String :=
  ["日付", "降水合計 (mm)", "昼光時間 (時間)", "日照時間 (時間)"] ++ ["日照率"] ++ ["天気予報"]

/-- The column rename of src/app.py lines 214-218. -/
def renameCustomColumn (c : String) : String :=
  if c = "降水合計 (mm)" then "降水量 (mm)" else c

/-- Columns of `custom_df` after rename and after dropping `日照率`
(src/app.py lines 214-221). -/
def customAfterDropColumns : List String :=
  (customWorkingColumns.map renameCustomColumn).filter (fun c => c ≠ "日照率")

/-- The final reindex `custom_df[[...]]` (src/app.py line 224); pandas raises
(`none` here) if a requested column is absent. -/
def customFinalColumns : Option (List String) :=
  let wanted := ["日付", "降水量 (mm)", "昼光時間 (時間)", "日照時間 (時間)", "天気予報"]
  if wanted.all (fun c => customAfterDropColumns.contains c) then some wanted else none

/-! ### Coordinate table loader (src/app.py lines 18-78) -/

/-- One loaded coordinate entry (the dict appended to `PREFECTURE_DATA_LIST`). -/
structure CoordEntry where
  display_name : String
  latitude : ℚ
  longitude : ℚ
  region : String
deriving DecidableEq, Repr

/-- One row of the CSV as pandas reads it: `none` models a missing (NaN) cell.
The coordinate cells are kept as raw text, possibly degree-marked. -/
structure CsvRow where
  prefecture : Option String
  capital : Option String
  region : Option String
  latText : Option String
  lonText : Option String
deriving DecidableEq, Repr

/-- `str.replace` of the degree mark (src/app.py lines 42-43). -/
def stripDegreeMark (s : String) : String :=
  String.mk (s.data.filter (fun c => c ≠ '∘'))

/-- Value of a nonempty digit string. -/
def decDigitsVal (cs : List Char) : Option ℕ :=
  cs.foldl
    (fun acc c => acc.bind (fun n => if c.isDigit then some (10 * n + (c.toNat - 48)) else none))
    (some 0)

/-- Python `float(...)` on a plain decimal string (sign, integer part,
optional fractional part); `none` models the `ValueError` raised on
non-numeric text. -/
def ratOfDecimalText (s : String) : Option ℚ :=
  let split : ℚ × List Char :=
    match s.data with
    | '-' :: t => (-1, t)
    | '+' :: t => (1, t)
    | t => (1, t)
  let sgn := split.1
  let intPart := split.2.takeWhile (fun c => c ≠ '.')
  let rest := split.2.dropWhile (fun c => c ≠ '.')
  match rest with
  | [] =>
    if intPart.isEmpty then none
    else (decDigitsVal intPart).map (fun n => sgn * (n : ℚ))
  | _ :: fracPart =>
    if fracPart.contains '.' then none
    else if intPart.isEmpty && fracPart.isEmpty then none
    else
      (decDigitsVal intPart).bind (fun i =>
        (decDigitsVal fracPart).map (fun f =>
          sgn * ((i : ℚ) + (f : ℚ) / ((10 : ℚ) ^ fracPart.length))))

/-- `astype(str).str.replace('∘', '').astype(float)` on one cell
(src/app.py lines 42-43).  A missing cell becomes the string `nan`, which
`float` turns back into NaN (modelled as `none`, later dropped by `dropna`);
non-numeric text raises, which the source's catch-all turns into a
whole-table fallback. -/
def parseCoordCell (cell : Option String) : Except Unit (Option ℚ) :=
  match cell with
  | none => Except.ok none
  | some s =>
    match ratOfDecimalText (stripDegreeMark s) with
    | some q => Except.ok (some q)
    | none => Except.error ()

/-- A CSV row after the coordinate columns have been converted. -/
structure ParsedRow where
  prefecture : Option String
  capital : Option String
  region : Option String
  latitude : Option ℚ
  longitude : Option ℚ
deriving DecidableEq, Repr

/-- Conversion of both coordinate cells of one row. -/
def parseRow (r : CsvRow) : Except Unit ParsedRow :=
  (parseCoordCell r.latText).bind (fun la =>
    (parseCoordCell r.lonText).map (fun lo =>
      { prefecture := r.prefecture, capital := r.capital, region := r.region,
        latitude := la, longitude := lo }))

/-- Display-name derivation (src/app.py lines 54-59). -/
def displayNameFor (prefecture capital : String) : String :=
  if prefecture = "東京都" then "東京都庁（新宿区）"
  else if prefecture = "北海道" then "北海道庁（札幌市）"
  else prefecture ++ "（" ++ capital ++ "）"

/-- Region defaulting: `fillna` with the empty string (src/app.py line 39)
followed by the falsy check of line 51. -/
def regionNameFor (region : Option String) : String :=
  match region with
  | none => "その他"
  | some s => if s = "" then "その他" else s

/-- The `dropna` over the four required columns plus the loop body
(src/app.py lines 46-67): a row with all required fields present yields one
entry, any other row yields nothing. -/
def buildEntry (p : ParsedRow) : Option CoordEntry :=
  match p.prefecture, p.capital, p.latitude, p.longitude with
  | some pre, some cap, some la, some lo =>
    some { display_name := displayNameFor pre cap, latitude := la, longitude := lo,
           region := regionNameFor p.region }
  | _, _, _, _ => none

/-- Fallback entry appended when the CSV file does not exist
(src/app.py lines 27-35). -/
def fallbackMissingFileEntry : CoordEntry :=
  { display_name := "データ読み込みエラー発生（東京を使用）",
    latitude := 35.689, longitude := 139.692, region := "関東" }

/-- Fallback entry installed by the catch-all handler
(src/app.py lines 71-78). -/
def fallbackLoadErrorEntry : CoordEntry :=
  { display_name := "データ読み込みエラー発生（東京を使用）",
    latitude := 35.689, longitude := 139.692, region := "エラー" }

/-- `load_prefecture_coords` (src/app.py lines 18-78).  `none` as the source
models a missing CSV file; the `astype(float)` conversion runs over the whole
column before any row is processed, so one malformed cell aborts the load. -/
def loadPrefectureCoords (source : Option (List CsvRow)) : List CoordEntry :=
  match source with
  | none => [fallbackMissingFileEntry]
  | some rows =>
    match rows.mapM parseRow with
    | Except.error _ => [fallbackLoadErrorEntry]
    | Except.ok parsed => parsed.filterMap buildEntry

/-! ### Selection and sorting in the request handler (src/app.py lines 259-308) -/

/-- `valid_keys` (src/app.py line 286). -/
def validKeys (table : List CoordEntry) : List String :=
  table.map (fun e => e.display_name)

/-- Steps 1, 4 and 5 of `index` (src/app.py lines 268-294): default to the
first entry, replace an unknown or absent key by the default key, then look
the key up with the default entry as the `next(...)` fallback.  `none` as the
request models a GET request (no form key); the empty-table case is the 500
response of line 266. -/
def indexResolve (table : List CoordEntry) (requested : Option String) : Option CoordEntry :=
  match table with
  | [] => none
  | defaultEntry :: rest =>
    let key :=
      match requested with
      | none => defaultEntry.display_name
      | some k => if (validKeys (defaultEntry :: rest)).contains k then k
                  else defaultEntry.display_name
    some (((defaultEntry :: rest).find? (fun e => e.display_name == key)).getD defaultEntry)

/-- The sort key of src/app.py lines 276-280: latitude descending. -/
def latitudeDescRel (a b : CoordEntry) : Prop :=
  b.latitude ≤ a.latitude

instance : DecidableRel latitudeDescRel :=
  fun a b => inferInstanceAs (Decidable (b.latitude ≤ a.latitude))

instance : IsTotal CoordEntry latitudeDescRel :=
  ⟨fun a b => le_total b.latitude a.latitude⟩

instance : IsTrans CoordEntry latitudeDescRel :=
  ⟨fun _ _ _ h1 h2 => le_trans h2 h1⟩

/-- `sorted(PREFECTURE_DATA_LIST, key=latitude, reverse=True)`
(src/app.py lines 276-280): a stable descending sort producing a new list. -/
def sortByLatitudeDescending (table : List CoordEntry) : List CoordEntry :=
  table.insertionSort latitudeDescRel

/-- The pair the handler hands to the template: the sorted display list and
the selected entry (src/app.py lines 276-305). -/
def indexView (table : List CoordEntry) (requested : Option String) :
    Option (List CoordEntry × CoordEntry) :=
  match indexResolve table requested with
  | none => none
  | some sel => some (sortByLatitudeDescending table, sel)

theorem classify_eq_spec_chain (p r : ℚ) : classify p r = classifySpec p r := by
  unfold classify classifySpec
  by_cases h1 : 5 ≤ p <;>
    by_cases h2 : r < 50 <;>
      by_cases h3 : 0 < p <;>
        by_cases h4 : p < 5 <;>
          by_cases h5 : p = 0 <;>
            by_cases h6 : 50 ≤ r <;>
              by_cases h7 : r ≤ 90 <;>
                simp [h1, h2, h3, h4, h5, h6, h7] <;> norm_num

theorem indexResolve_none (d : CoordEntry) (rest : List CoordEntry) :
    indexResolve (d :: rest) none = some d := by
  unfold indexResolve
  simp [List.find?]

theorem indexResolve_unknown (d : CoordEntry) (rest : List CoordEntry) (k : String)
    (h : (validKeys (d :: rest)).contains k = false) :
    indexResolve (d :: rest) (some k) = some d := by
  have h' : ¬ ((validKeys (d :: rest)).contains k = true) := by
    rw [h]
    exact Bool.false_ne_true
  show some (((d :: rest).find?
      (fun e => e.display_name ==
        if (validKeys (d :: rest)).contains k then k else d.display_name)).getD d) = some d
  rw [if_neg h']
  simp [List.find?]

/-! ### Concrete data used by witnesses and counterexamples -/

def goodCsvRow : CsvRow :=
  { prefecture := some "青森県", capital := some "青森市", region := some "東北",
    latText := some "40.824∘", lonText := some "140.740∘" }

def badCsvRow : CsvRow :=
  { prefecture := some "岩手県", capital := some "盛岡市", region := some "東北",
    latText := some "not-a-number", lonText := some "141.152∘" }

def rowMissingCapital : CsvRow :=
  { prefecture := some "秋田県", capital := none, region := some "東北",
    latText := some "39.719∘", lonText := some "140.102∘" }

def parsedGoodRow : ParsedRow :=
  { prefecture := some "青森県", capital := some "青森市", region := some "東北",
    latitude := some 40.824, longitude := some 140.740 }

def parsedMissingCapital : ParsedRow :=
  { prefecture := some "秋田県", capital := none, region := some "東北",
    latitude := some 39.719, longitude := some 140.102 }

def aomoriEntry : CoordEntry :=
  { display_name := "青森県（青森市）", latitude := 40.824, longitude := 140.740,
    region := "東北" }

def tokyoEntry : CoordEntry :=
  { display_name := "東京都庁（新宿区）", latitude := 35.689, longitude := 139.692,
    region := "関東" }

def sapporoEntry : CoordEntry :=
  { display_name := "北海道庁（札幌市）", latitude := 43.064, longitude := 141.347,
    region := "北海道" }

/-! ### Claim theorems -/

/-- C1: the classifier is a pure function of (precip_sum_mm,
sunshine_ratio_pct) assigning exactly one of the five labels by the strict
first-match priority chain of the specification — the sequential
mask-overwrite implementation agrees with the chain everywhere, and
Scenarios A-E hold. -/
theorem classifier_is_priority_chain :
    (∀ p r : ℚ, classify p r = classifySpec p r) ∧
    classify 6 80 = WeatherLabel.rainWarning ∧
    classify 2 30 = WeatherLabel.occasionalRain ∧
    classify 0 70 = WeatherLabel.partlyCloudy ∧
    classify 0 20 = WeatherLabel.cloudy ∧
    classify 0 95 = WeatherLabel.clear :=
  ⟨classify_eq_spec_chain, by decide, by decide, by decide, by decide, by decide⟩

/-- C2: sunshine_ratio_pct is 0 when daylight_hours ≤ 0 and
100 × sunshine_hours / daylight_hours when daylight_hours > 0; the division
is guarded, and Scenario F (daylight 0, sunshine 0, precip 0) yields ratio 0
and label CLOUDY instead of a crash. -/
theorem sunshine_division_guard :
    (∀ d s : ℚ, d ≤ 0 → sunshineRatioPct d s = 0) ∧
    (∀ d s : ℚ, 0 < d → sunshineRatioPct d s = 100 * s / d) ∧
    sunshineRatioPct 0 0 = 0 ∧
    classify 0 (sunshineRatioPct 0 0) = WeatherLabel.cloudy := by
  refine ⟨fun d s hd => ?_, fun d s hd => ?_, by decide, by decide⟩
  · unfold sunshineRatioPct
    rw [if_neg (not_lt.mpr hd), zero_mul]
  · unfold sunshineRatioPct
    rw [if_pos hd]
    ring

theorem sunshine_division_guard_witness :
    sunshineRatioPct (-2) 3 = 0 ∧ sunshineRatioPct 4 1 = 100 * 1 / 4 :=
  ⟨sunshine_division_guard.1 (-2) 3 (by decide),
   sunshine_division_guard.2.1 4 1 (by decide)⟩

/-- C3 counterexample: with daylight_hours = 1 > 0 and sunshine_hours = 2
the builder produces sunshine_ratio_pct = 200, outside [0, 100]; the claim's
quantification over all real-valued inputs fails because no clamping is
performed. -/
theorem sunshine_ratio_range_counterexample :
    (0 : ℚ) < 1 ∧ sunshineRatioPct 1 2 = 200 ∧
    ¬ (0 ≤ sunshineRatioPct 1 2 ∧ sunshineRatioPct 1 2 ≤ 100) := by decide

/-- C3 amended: for daylight_hours > 0 the ratio lies in [0, 100] provided
0 ≤ sunshine_hours ≤ daylight_hours, and for daylight_hours ≤ 0 it is
exactly 0. -/
theorem sunshine_ratio_range_amended (d s : ℚ) :
    (0 < d → 0 ≤ s → s ≤ d → 0 ≤ sunshineRatioPct d s ∧ sunshineRatioPct d s ≤ 100) ∧
    (d ≤ 0 → sunshineRatioPct d s = 0) := by
  constructor
  · intro hd hs hsd
    unfold sunshineRatioPct
    rw [if_pos hd]
    have h1 : 0 ≤ s / d := div_nonneg hs hd.le
    have h2 : s / d ≤ 1 := (div_le_one hd).mpr hsd
    constructor <;> nlinarith
  · intro hd
    unfold sunshineRatioPct
    rw [if_neg (not_lt.mpr hd), zero_mul]

theorem sunshine_ratio_range_amended_witness :
    (0 ≤ sunshineRatioPct 4 1 ∧ sunshineRatioPct 4 1 ≤ 100) ∧
    sunshineRatioPct (-1) 5 = 0 :=
  ⟨(sunshine_ratio_range_amended 4 1).1 (by decide) (by decide) (by decide),
   (sunshine_ratio_range_amended (-1) 5).2 (by decide)⟩

/-- C4 counterexample: a single row whose latitude text is not numeric makes
the whole-column `astype(float)` raise, so the catch-all replaces the entire
table with the fallback entry — the fully valid row is not loaded, contrary
to the claimed row-level recovery. -/
theorem loader_row_recovery_counterexample :
    loadPrefectureCoords (some [goodCsvRow, badCsvRow]) = [fallbackLoadErrorEntry] ∧
    loadPrefectureCoords (some [goodCsvRow]) = [aomoriEntry] ∧
    aomoriEntry ∉ loadPrefectureCoords (some [goodCsvRow, badCsvRow]) := by decide

/-- C4 amended: when every coordinate cell converts without raising, recovery
is row-level — the table is the per-row projection in which exactly the rows
with a missing prefecture, capital, latitude or longitude are dropped, and
every loaded entry comes from some parsed row. -/
theorem loader_row_recovery_amended (rows : List CsvRow) (parsed : List ParsedRow)
    (h : rows.mapM parseRow = Except.ok parsed) :
    loadPrefectureCoords (some rows) = parsed.filterMap buildEntry ∧
    (∀ p : ParsedRow, (buildEntry p).isSome = true ↔
      (p.prefecture.isSome = true ∧ p.capital.isSome = true ∧
       p.latitude.isSome = true ∧ p.longitude.isSome = true)) ∧
    (∀ e, e ∈ loadPrefectureCoords (some rows) → ∃ p, p ∈ parsed ∧ buildEntry p = some e) := by
  have hload : loadPrefectureCoords (some rows) = parsed.filterMap buildEntry := by
    simp only [loadPrefectureCoords]
    rw [h]
  refine ⟨hload, ?_, ?_⟩
  · intro p
    rcases p with ⟨pre, cap, reg, la, lo⟩
    cases pre <;> cases cap <;> cases la <;> cases lo <;> simp [buildEntry]
  · intro e he
    rw [hload] at he
    rcases List.mem_filterMap.mp he with ⟨p, hp, hbe⟩
    exact ⟨p, hp, hbe⟩

theorem loader_row_recovery_amended_witness :
    loadPrefectureCoords (some [goodCsvRow, rowMissingCapital]) =
      [parsedGoodRow, parsedMissingCapital].filterMap buildEntry ∧
    loadPrefectureCoords (some [goodCsvRow, rowMissingCapital]) = [aomoriEntry] :=
  ⟨(loader_row_recovery_amended [goodCsvRow, rowMissingCapital]
      [parsedGoodRow, parsedMissingCapital] (by rfl)).1,
   by decide⟩

/-- C5: a request with no key, or with a key absent from the coordinate
table, resolves to the first entry of the table and never to an error or an
empty record. -/
theorem unknown_key_resolves_to_default (defaultEntry : CoordEntry)
    (rest : List CoordEntry) :
    indexResolve (defaultEntry :: rest) none = some defaultEntry ∧
    ∀ k : String, (validKeys (defaultEntry :: rest)).contains k = false →
      indexResolve (defaultEntry :: rest) (some k) = some defaultEntry :=
  ⟨indexResolve_none defaultEntry rest,
   fun k hk => indexResolve_unknown defaultEntry rest k hk⟩

theorem unknown_key_resolves_to_default_witness :
    indexResolve [tokyoEntry, sapporoEntry] (some "存在しない県") = some tokyoEntry ∧
    (validKeys [tokyoEntry, sapporoEntry]).contains "存在しない県" = false :=
  ⟨(unknown_key_resolves_to_default tokyoEntry [sapporoEntry]).2 "存在しない県" (by decide),
   by decide⟩

/-- C6 counterexample: `round(0).astype(int)` performs no clamping, so a raw
probability of 150 yields 150, outside [0, 100]; the claim's quantification
over all numeric provider series fails. -/
theorem probability_range_counterexample :
    probabilityOut 150 = 150 ∧ ¬ probabilityOut 150 ≤ 100 := by decide

/-- C6 amended: the output is the raw probability rounded to a nearest
integer (half-to-even), and it lies in [0, 100] whenever the raw value does;
no clamping is performed outside that range. -/
theorem probability_round_bounds (x : ℚ) :
    |x - (probabilityOut x : ℚ)| ≤ 1 / 2 ∧
    (0 ≤ x → x ≤ 100 → 0 ≤ probabilityOut x ∧ probabilityOut x ≤ 100) := by
  have hfl : (⌊x⌋ : ℚ) ≤ x := Int.floor_le x
  have hfu : x < ⌊x⌋ + 1 := Int.lt_floor_add_one x
  unfold probabilityOut
  rw [roundHalfEven_floor]
  have hup : x ≤ 100 → ⌊x⌋ ≤ 100 := fun h100 => by
    have := Int.floor_le_floor h100
    simpa using this
  have hlow : 0 ≤ x → 0 ≤ ⌊x⌋ := fun h0 => Int.floor_nonneg.mpr h0
  split_ifs with h1 h2 h3
  · refine ⟨abs_le.mpr ⟨by linarith, by linarith⟩, fun h0 h100 => ⟨hlow h0, hup h100⟩⟩
  · refine ⟨abs_le.mpr ⟨by push_cast; linarith, by push_cast; linarith⟩, fun h0 h100 => ?_⟩
    have hq : (⌊x⌋ : ℚ) < 100 := by linarith
    have hz : ⌊x⌋ < 100 := by exact_mod_cast hq
    constructor
    · have := hlow h0
      omega
    · omega
  · have hhalf : x - (⌊x⌋ : ℚ) = 1 / 2 := le_antisymm (not_lt.mp h2) (not_lt.mp h1)
    refine ⟨abs_le.mpr ⟨by linarith, by linarith⟩, fun h0 h100 => ⟨hlow h0, hup h100⟩⟩
  · have hhalf : x - (⌊x⌋ : ℚ) = 1 / 2 := le_antisymm (not_lt.mp h2) (not_lt.mp h1)
    refine ⟨abs_le.mpr ⟨by push_cast; linarith, by push_cast; linarith⟩, fun h0 h100 => ?_⟩
    have hq : (⌊x⌋ : ℚ) < 100 := by linarith
    have hz : ⌊x⌋ < 100 := by exact_mod_cast hq
    constructor
    · have := hlow h0
      omega
    · omega

theorem probability_round_bounds_witness :
    0 ≤ probabilityOut 100 ∧ probabilityOut 100 ≤ 100 :=
  (probability_round_bounds 100).2 (by decide) (by decide)

/-- C7: the daily table keeps exactly date, max/min temperature, sunrise,
sunset, precipitation probability and precipitation sum (dropping rain sum,
showers sum, daylight hours and sunshine hours), and the custom analysis
table is exactly the five columns date, precipitation, daylight hours,
sunshine hours and label, with the internal sunshine-ratio column removed. -/
theorem formatter_column_sets :
    dailyDisplayColumns =
      ["日付", "最高気温 (°C)", "最低気温 (°C)", "日の出時刻", "日の入り時刻",
       "降水確率 最大 (%)", "降水合計 (mm)"] ∧
    customFinalColumns =
      some ["日付", "降水量 (mm)", "昼光時間 (時間)", "日照時間 (時間)", "天気予報"] ∧
    "日照率" ∈ customWorkingColumns ∧
    "日照率" ∉ ["日付", "降水量 (mm)", "昼光時間 (時間)", "日照時間 (時間)", "天気予報"] := by
  decide

/-- C8: a strictly negative precipitation value matches none of rules 1-4
(their comparisons are strict), so the classifier falls through to the
default CLEAR label regardless of the sunshine ratio. -/
theorem negative_precip_is_clear (p r : ℚ) (h : p < 0) :
    classify p r = WeatherLabel.clear := by
  rw [classify_eq_spec_chain]
  have h1 : ¬ 5 ≤ p := by linarith
  have h2 : ¬ 0 < p := by linarith
  have h3 : p ≠ 0 := ne_of_lt h
  simp [classifySpec, h1, h2, h3]

theorem negative_precip_is_clear_witness :
    (-1 : ℚ) < 0 ∧ classify (-1) 20 = WeatherLabel.clear :=
  ⟨by decide, negative_precip_is_clear (-1) 20 (by decide)⟩

/-- C9: a day with light rain (0 < precip < 5) but sunshine ratio ≥ 50
matches none of rules 1-4 and receives the default CLEAR label. -/
theorem light_rain_high_sunshine_is_clear (p r : ℚ)
    (h1 : 0 < p) (h2 : p < 5) (h3 : 50 ≤ r) :
    classify p r = WeatherLabel.clear := by
  rw [classify_eq_spec_chain]
  have hn5 : ¬ 5 ≤ p := by linarith
  have hnr : ¬ r < 50 := not_lt.mpr h3
  have hne : p ≠ 0 := ne_of_gt h1
  simp [classifySpec, hn5, hnr, hne]

theorem light_rain_high_sunshine_is_clear_witness :
    classify 2 80 = WeatherLabel.clear :=
  light_rain_high_sunshine_is_clear 2 80 (by decide) (by decide) (by decide)

/-- C10: for a GET request or an unknown key, the selected entry is the
first element of the table in original load order; the latitude-descending
sort is a separate permuted copy handed to the template and does not change
which entry is selected. -/
theorem sorted_copy_keeps_default (defaultEntry : CoordEntry)
    (rest : List CoordEntry) (requested : Option String)
    (h : requested = none ∨
      ∃ k, requested = some k ∧ (validKeys (defaultEntry :: rest)).contains k = false) :
    indexView (defaultEntry :: rest) requested =
      some (sortByLatitudeDescending (defaultEntry :: rest), defaultEntry) ∧
    (sortByLatitudeDescending (defaultEntry :: rest)).Perm (defaultEntry :: rest) ∧
    List.Sorted latitudeDescRel (sortByLatitudeDescending (defaultEntry :: rest)) := by
  have hres : indexResolve (defaultEntry :: rest) requested = some defaultEntry := by
    rcases h with rfl | ⟨k, rfl, hk⟩
    · exact indexResolve_none defaultEntry rest
    · exact indexResolve_unknown defaultEntry rest k hk
  refine ⟨?_, ?_, ?_⟩
  · unfold indexView
    rw [hres]
  · exact List.perm_insertionSort latitudeDescRel _
  · exact List.sorted_insertionSort latitudeDescRel _

theorem sorted_copy_keeps_default_witness :
    indexView [tokyoEntry, sapporoEntry] none =
      some (sortByLatitudeDescending [tokyoEntry, sapporoEntry], tokyoEntry) ∧
    sortByLatitudeDescending [tokyoEntry, sapporoEntry] = [sapporoEntry, tokyoEntry] :=
  ⟨(sorted_copy_keeps_default tokyoEntry [sapporoEntry] none (Or.inl rfl)).1, by decide⟩

end WeatherForecast
